import Mathlib

/-!
Shallow embedding of the anon-aadhaar-halo2 circuit layer.

Each halo2 circuit is embedded by translating its `configure` gates into
polynomial expressions over the witness values of one region row (the
selector value `s` multiplies every gate, exactly as in the source), and
its `synthesize` into the witness assignment it produces.  The field `F`
is kept generic (`CommRing`/`Field`), mirroring the `F: PrimeField`
generics of the source; concrete evaluations instantiate `F := ZMod 11`
or `ZMod 101`.
-/

/-! ## Signal binding gadget (src/signal.rs, SquareCircuit) -/

/-- The advice cells of the square region, as named in
`SquareCircuit::synthesize` (advice[0] holds signal_hash, advice[1] holds
signal hash square). -/
inductive SquareCell
  | signalHash
  | signalHashSquare
deriving DecidableEq

/-- The one polynomial of the gate created in `SquareCircuit::configure`:
s * (signal_hash_square - signal_hash * signal_hash). -/
def squareGate {F : Type} [CommRing F] (s signal_hash signal_hash_square : F) : F :=
  s * (signal_hash_square - signal_hash * signal_hash)

/-- Boolean satisfaction of the square gate with the selector enabled
(`config.selector.enable(&mut region, 0)` in synthesize). -/
def squareCheck {F : Type} [CommRing F] [DecidableEq F]
    (signal_hash signal_hash_square : F) : Bool :=
  squareGate 1 signal_hash signal_hash_square == 0

/-- The advice assignments `SquareCircuit::synthesize` writes into row 0:
advice[0] gets the signal hash, advice[1] gets `signal_hash.map(|v| v * v)`. -/
def squareSynthesizeAssignments {F : Type} [CommRing F] (signal_hash : F) :
    List (SquareCell × F) :=
  [(SquareCell.signalHash, signal_hash),
   (SquareCell.signalHashSquare, signal_hash * signal_hash)]

/-- The `constrain_instance` calls issued by `SquareCircuit::synthesize`
(cell, instance row).  The source's only such call is commented out
(`// layouter.constrain_instance(signal_hash_square_cell.cell(), ...)`), and
`SquareConfig` does not even retain the instance column, so no binding is
issued. -/
def squareInstanceBindings : List (SquareCell × Nat) := []

/-! ## Timestamp gadget (src/timestamp.rs, DigitBytesToTimestamp) -/

/-- The six witness values of the timestamp row. -/
structure TimestampWitness (F : Type) where
  year : F
  month : F
  day : F
  hour : F
  minute : F
  second : F

/-- The pairs returned by the `date_time_constraints` gate of
`DigitBytesToTimestamp::synthesize`, in source order, each pair being a
polynomial together with the constant the source lists beside it; the
constraint reads (polynomial = constant). -/
def dateTimeConstraints {F : Type} [CommRing F] (max_years : F)
    (w : TimestampWitness F) : List (F × F) :=
  [ (w.year - 1970 + 1, 1),
    (max_years - w.year + 1, 1),
    (w.month - 1, 0),
    (12 - w.month + 1, 1),
    (w.day - 1, 0),
    (31 - w.day + 1, 1),
    (w.hour, 0),
    (23 - w.hour + 1, 1),
    (w.minute, 0),
    (59 - w.minute + 1, 1),
    (w.second, 0),
    (59 - w.second + 1, 1) ]

/-- Boolean satisfaction of every date_time constraint. -/
def dateTimeCheck {F : Type} [CommRing F] [DecidableEq F] (max_years : F)
    (w : TimestampWitness F) : Bool :=
  (dateTimeConstraints max_years w).all (fun p => p.1 == p.2)

/-! ## Conditional disclosure gadget (src/conditional_secrets.rs, IdentityCircuit) -/

/-- One row of the identity region: a value per advice column of
`IdentityConfig` (the state columns are vectors of five). -/
structure IdentityAssignment (F : Type) where
  reveal_age_above_18 : F
  age_above_18 : F
  qr_data_age_above_18 : F
  reveal_gender : F
  gender : F
  qr_data_gender : F
  reveal_pincode : F
  pincode : F
  qr_data_pincode : F
  reveal_state : F
  state : Fin 5 → F
  qr_data_state : Fin 5 → F

/-- The boolean-flag polynomial shared by the four reveal gates of
`IdentityCircuit::configure`: s * (reveal * (reveal - 1)). -/
def boolGate {F : Type} [CommRing F] (s reveal : F) : F :=
  s * (reveal * (reveal - 1))

/-- Every polynomial of the eight gates of `IdentityCircuit::configure`, in
source order; each must equal zero on an accepted row. -/
def identityGates {F : Type} [CommRing F] (s : F) (a : IdentityAssignment F) :
    List F :=
  [ boolGate s a.reveal_age_above_18,
    s * (a.age_above_18 - a.reveal_age_above_18 * a.qr_data_age_above_18),
    boolGate s a.reveal_gender,
    s * (a.gender - a.qr_data_gender),
    boolGate s a.reveal_pincode,
    s * (a.pincode - a.qr_data_pincode),
    boolGate s a.reveal_state ]
  ++ (List.finRange 5).map (fun i => s * (a.state i - a.qr_data_state i))

/-- A row of the identity region is accepted when every gate polynomial
vanishes with the selector enabled (`config.s.enable(&mut region, 0)`). -/
def identitySatisfied {F : Type} [CommRing F] (a : IdentityAssignment F) : Prop :=
  ∀ g ∈ identityGates 1 a, g = 0

/-- Boolean form of `identitySatisfied`. -/
def identityCheck {F : Type} [CommRing F] [DecidableEq F]
    (a : IdentityAssignment F) : Bool :=
  (identityGates 1 a).all (fun g => g == 0)

/-- The constructor arguments of `IdentityCircuit` (`IdentityCircuit::new`):
every witness is optional. -/
structure IdentityCircuitInput where
  reveal_age_above_18 : Option Bool
  age_above_18 : Option Nat
  qr_data_age_above_18 : Option Nat
  reveal_gender : Option Bool
  gender : Option Nat
  qr_data_gender : Option Nat
  reveal_pincode : Option Bool
  pincode : Option Nat
  qr_data_pincode : Option Nat
  reveal_state : Option Bool
  state : Option (List Nat)
  qr_data_state : Option (List Nat)

/-- The row data `IdentityCircuit::synthesize` writes: the ten scalar cells
are always assigned, the state cells only when the corresponding input
vector is present (`if let Some(state) = &self.state`), recorded as
(column index, value) pairs. -/
structure IdentityRow (F : Type) where
  selector_enabled : Bool
  reveal_age_above_18 : F
  age_above_18 : F
  qr_data_age_above_18 : F
  reveal_gender : F
  gender : F
  qr_data_gender : F
  reveal_pincode : F
  pincode : F
  qr_data_pincode : F
  reveal_state : F
  state : List (Nat × F)
  qr_data_state : List (Nat × F)

/-- The state cells written for one optional state vector: nothing when the
vector is missing, one (column index, cast value) pair per byte otherwise. -/
def stateCells (F : Type) [CommRing F] (st : Option (List Nat)) : List (Nat × F) :=
  match st with
  | none => []
  | some l => l.enum.map (fun p => (p.1, (p.2 : F)))

/-- The cast `F::from(b as u64)` applied to a boolean witness. -/
def boolToF (F : Type) [CommRing F] (b : Bool) : F :=
  if b then 1 else 0

/-- Translation of `IdentityCircuit::synthesize`: each scalar witness is
assigned `self.x.unwrap_or(false)` or `self.x.unwrap_or(0)`, cast into the
field exactly as `F::from(.. as u64)`; missing state vectors are skipped;
the function returns `Ok` in every case (no input is rejected). -/
def identitySynthesize (F : Type) [CommRing F] (c : IdentityCircuitInput) :
    Except Unit (IdentityRow F) :=
  Except.ok
    { selector_enabled := true
      reveal_age_above_18 := boolToF F (c.reveal_age_above_18.getD false)
      age_above_18 := (c.age_above_18.getD 0 : Nat)
      qr_data_age_above_18 := (c.qr_data_age_above_18.getD 0 : Nat)
      reveal_gender := boolToF F (c.reveal_gender.getD false)
      gender := (c.gender.getD 0 : Nat)
      qr_data_gender := (c.qr_data_gender.getD 0 : Nat)
      reveal_pincode := boolToF F (c.reveal_pincode.getD false)
      pincode := (c.pincode.getD 0 : Nat)
      qr_data_pincode := (c.qr_data_pincode.getD 0 : Nat)
      reveal_state := boolToF F (c.reveal_state.getD false)
      state := stateCells F c.state
      qr_data_state := stateCells F c.qr_data_state }

/-- The all-missing instance of `IdentityCircuitInput`: every witness is
`None`. -/
def identityInputAllNone : IdentityCircuitInput :=
  { reveal_age_above_18 := none
    age_above_18 := none
    qr_data_age_above_18 := none
    reveal_gender := none
    gender := none
    qr_data_gender := none
    reveal_pincode := none
    pincode := none
    qr_data_pincode := none
    reveal_state := none
    state := none
    qr_data_state := none }

/-! ## Composition circuit (src/lib.rs, TestRSASignatureWithHashCircuit1) -/

/-- Modelled from the spec: the in-circuit RSA verification engine
(`RSAConfig::verify_pkcs1v15_signature`, defined in the crate's chip module,
which is not present under src/) is the trusted external collaborator of
section 4.1; per the contract documented on
`RSASignatureVerifier::verify_pkcs1v15_signature`, the returned assigned bit
is equivalent to one when `signature` is valid for `public_key` and `msg`,
and equivalent to zero otherwise. -/
def rsaValidityBit (F : Type) [CommRing F] (signatureIsValid : Bool) : F :=
  if signatureIsValid then 1 else 0

/-- The constraints of the composition region of
`TestRSASignatureWithHashCircuit1::synthesize` that involve the validity
bit: the verifier gadget pins the `is_valid` cell to `rsaValidityBit` of the
actual signature validity, and `assert_is_const(ctx, &is_valid, F::one())`
pins the same cell to the constant one. -/
def compositionCheck {F : Type} [CommRing F] [DecidableEq F]
    (signatureIsValid : Bool) (is_valid : F) : Bool :=
  (is_valid == rsaValidityBit F signatureIsValid) && (is_valid == 1)

/-! ## Nullifier gadget (src/nullifier.rs, NullifierCircuit) -/

/-- The photo window length, `const PHOTO_SIZE: usize = 32`. -/
def PHOTO_SIZE : Nat := 32

/-- Computation of `NullifierCircuit::synthesize`, with the Poseidon sponge
hash (the external collaborator of spec section 6, `hash(inputs) -> Elem`;
each `hash_fix_len_bytes` call runs one fresh initialize-absorb-squeeze
sponge) abstracted as a function argument: first16_hash over
`photo[0..16]`, last16_hash over `photo[16..32]`, and the output over
`[nullifier_seed, first16_hash, last16_hash]`. -/
def nullifierSynthesize {F : Type} (poseidonHash : List F → F)
    (nullifier_seed : F) (photo : List F) : F :=
  let first16_hash := poseidonHash (photo.take 16)
  let last16_hash := poseidonHash (photo.drop 16)
  poseidonHash [nullifier_seed, first16_hash, last16_hash]

/-- A concrete stand-in sponge over ZMod 11, used only to evaluate the
nullifier computation on concrete inputs. -/
def demoPoseidonHash (l : List (ZMod 11)) : ZMod 11 :=
  l.sum + l.length

/-! ## Public instance vector (src/qr_data_extractor.rs, AadhaarQRVerifierCircuit) -/

/-- The possible verifier-visible values, one constructor per entry name
appearing in either the configure code or the spec's vector. -/
inductive PublicEntry
  | nullifierSeed
  | signalHash
  | signalHashSquared
  | pubkeyHash
  | nullifierValue
  | timestampValue
  | ageAbove18
  | genderValue
  | pinCode
  | stateValue
deriving DecidableEq

/-- The instance columns declared by `AadhaarQRVerifierCircuit::configure`,
in the order of the `meta.instance_column()` calls: nullifier_seed,
signal_hash, pubkey_hash, nullifier, timestamp, age_above18, gender,
pin_code, state. -/
def aadhaarInstanceColumns : List PublicEntry :=
  [ PublicEntry.nullifierSeed,
    PublicEntry.signalHash,
    PublicEntry.pubkeyHash,
    PublicEntry.nullifierValue,
    PublicEntry.timestampValue,
    PublicEntry.ageAbove18,
    PublicEntry.genderValue,
    PublicEntry.pinCode,
    PublicEntry.stateValue ]

/-- Modelled from the spec: the public instance vector of spec section 6,
`[nullifier_seed, signal_hash_squared, pubkey_hash, nullifier, timestamp,
age_above_18, gender, pin_code, state]`. -/
def specPublicInstanceVector : List PublicEntry :=
  [ PublicEntry.nullifierSeed,
    PublicEntry.signalHashSquared,
    PublicEntry.pubkeyHash,
    PublicEntry.nullifierValue,
    PublicEntry.timestampValue,
    PublicEntry.ageAbove18,
    PublicEntry.genderValue,
    PublicEntry.pinCode,
    PublicEntry.stateValue ]

/-! ## Concrete instances used in counterexamples and witnesses -/

/-- A satisfied identity row over ZMod 11 in which the gender reveal flag is
zero while the published gender is one (forced by the unconditional gender
equality gate). -/
def identityHiddenGenderRow : IdentityAssignment (ZMod 11) :=
  { reveal_age_above_18 := 0
    age_above_18 := 0
    qr_data_age_above_18 := 1
    reveal_gender := 0
    gender := 1
    qr_data_gender := 1
    reveal_pincode := 1
    pincode := 5
    qr_data_pincode := 5
    reveal_state := 0
    state := fun _ => 2
    qr_data_state := fun _ => 2 }

/-- A satisfied identity row over ZMod 11 with every reveal flag boolean and
the age attribute revealed. -/
def identityRevealedRow : IdentityAssignment (ZMod 11) :=
  { reveal_age_above_18 := 1
    age_above_18 := 1
    qr_data_age_above_18 := 1
    reveal_gender := 1
    gender := 1
    qr_data_gender := 1
    reveal_pincode := 1
    pincode := 6
    qr_data_pincode := 6
    reveal_state := 1
    state := fun _ => 3
    qr_data_state := fun _ => 3 }

/-- The in-bounds timestamp 1970-01-01 00:00:00 over ZMod 101. -/
def timestampEpochWitness : TimestampWitness (ZMod 101) :=
  { year := 1970, month := 1, day := 1, hour := 0, minute := 0, second := 0 }

/-! ## Theorems -/

/-- Membership helper: the gender equality gate is one of the identity
gates. -/
theorem identityGates_extract {F : Type} [CommRing F] (a : IdentityAssignment F)
    (h : identitySatisfied a) :
    1 * (a.age_above_18 - a.reveal_age_above_18 * a.qr_data_age_above_18) = 0 ∧
    1 * (a.gender - a.qr_data_gender) = 0 ∧
    1 * (a.pincode - a.qr_data_pincode) = 0 ∧
    (∀ i : Fin 5, 1 * (a.state i - a.qr_data_state i) = 0) := by
  refine ⟨h _ ?_, h _ ?_, h _ ?_, fun i => h _ ?_⟩
  · simp [identityGates]
  · simp [identityGates]
  · simp [identityGates]
  · simp only [identityGates, List.mem_append, List.mem_map]
    exact Or.inr ⟨i, List.mem_finRange i, rfl⟩

/-- C6: any assignment of the square region with the selector enabled
satisfies the gate of `SquareCircuit::configure` exactly when
signal_hash_squared equals signal_hash * signal_hash; so an assignment in
which either of the two witnesses is changed without recomputing the other
is rejected. -/
theorem C6_square_gate_iff {F : Type} [CommRing F] [DecidableEq F]
    (v sq : F) : squareCheck v sq = true ↔ sq = v * v := by
  simp [squareCheck, squareGate, sub_eq_zero]

/-- C1 counterexample: a satisfied identity row whose gender reveal flag is
zero while its published gender is one, so a hidden attribute is not forced
to zero for the gender attribute. -/
theorem C1_hidden_gender_counterexample :
    identityCheck identityHiddenGenderRow = true ∧
    identityHiddenGenderRow.reveal_gender = 0 ∧
    identityHiddenGenderRow.gender = 1 := by
  decide

/-- C1 (amended): on every accepted identity row, the age attribute obeys
the masked-equality law (published equals reference when its reveal flag is
one, zero when the flag is zero), while gender, pincode and the five state
bytes are forced to equal their signed reference values unconditionally,
whatever their reveal flags hold. -/
theorem C1_disclosure_masking {F : Type} [CommRing F]
    (a : IdentityAssignment F) (h : identitySatisfied a) :
    (a.reveal_age_above_18 = 1 → a.age_above_18 = a.qr_data_age_above_18) ∧
    (a.reveal_age_above_18 = 0 → a.age_above_18 = 0) ∧
    a.gender = a.qr_data_gender ∧
    a.pincode = a.qr_data_pincode ∧
    (∀ i : Fin 5, a.state i = a.qr_data_state i) := by
  obtain ⟨hage, hgender, hpin, hstate⟩ := identityGates_extract a h
  rw [one_mul, sub_eq_zero] at hage hgender hpin
  refine ⟨fun h1 => ?_, fun h0 => ?_, hgender, hpin, fun i => ?_⟩
  · rw [hage, h1, one_mul]
  · rw [hage, h0, zero_mul]
  · have := hstate i
    rwa [one_mul, sub_eq_zero] at this

/-- C1 witness: the amended statement evaluated on a concrete accepted row
with every attribute revealed. -/
theorem C1_disclosure_masking_witness :
    (identityRevealedRow.reveal_age_above_18 = 1 →
      identityRevealedRow.age_above_18 = identityRevealedRow.qr_data_age_above_18) ∧
    (identityRevealedRow.reveal_age_above_18 = 0 →
      identityRevealedRow.age_above_18 = 0) ∧
    identityRevealedRow.gender = identityRevealedRow.qr_data_gender ∧
    identityRevealedRow.pincode = identityRevealedRow.qr_data_pincode ∧
    (∀ i : Fin 5, identityRevealedRow.state i = identityRevealedRow.qr_data_state i) :=
  C1_disclosure_masking identityRevealedRow (by unfold identitySatisfied; decide)

/-- C8: the boolean gate of `IdentityCircuit::configure` vanishes exactly
when the flag is zero or one, and on every accepted identity row each of
the four reveal flags is zero or one, so a row giving a reveal flag any
other value is rejected. -/
theorem C8_reveal_flags_boolean {F : Type} [Field F] (r : F)
    (a : IdentityAssignment F) :
    (boolGate 1 r = 0 ↔ r = 0 ∨ r = 1) ∧
    (identitySatisfied a →
      (a.reveal_age_above_18 = 0 ∨ a.reveal_age_above_18 = 1) ∧
      (a.reveal_gender = 0 ∨ a.reveal_gender = 1) ∧
      (a.reveal_pincode = 0 ∨ a.reveal_pincode = 1) ∧
      (a.reveal_state = 0 ∨ a.reveal_state = 1)) := by
  have key : ∀ x : F, boolGate 1 x = 0 ↔ x = 0 ∨ x = 1 := by
    intro x
    rw [boolGate, one_mul, mul_eq_zero, sub_eq_zero]
  refine ⟨key r, fun h => ?_⟩
  have h1 : boolGate 1 a.reveal_age_above_18 = 0 := h _ (by simp [identityGates])
  have h2 : boolGate 1 a.reveal_gender = 0 := h _ (by simp [identityGates])
  have h3 : boolGate 1 a.reveal_pincode = 0 := h _ (by simp [identityGates])
  have h4 : boolGate 1 a.reveal_state = 0 := h _ (by simp [identityGates])
  exact ⟨(key _).mp h1, (key _).mp h2, (key _).mp h3, (key _).mp h4⟩

/-- C2: when the signature is not valid for the key and message, the
verifier contract pins the validity bit to zero while
`assert_is_const(ctx, &is_valid, F::one())` pins it to one, so no value of
the bit satisfies the composition region. -/
theorem C2_forged_signature_unsatisfiable {F : Type} [Field F] [DecidableEq F]
    (is_valid : F) : compositionCheck false is_valid = false := by
  rcases eq_or_ne is_valid 0 with h | h
  · simp [compositionCheck, rsaValidityBit, h, beq_eq_false_iff_ne]
  · simp [compositionCheck, rsaValidityBit, beq_eq_false_iff_ne, h]

/-- C3 counterexample: the instance columns declared by
`AadhaarQRVerifierCircuit::configure` differ from the spec's public
instance vector at position one, where the circuit exposes the raw
signal_hash instead of signal_hash_squared. -/
theorem C3_instance_vector_counterexample :
    aadhaarInstanceColumns ≠ specPublicInstanceVector ∧
    aadhaarInstanceColumns[1]? = some PublicEntry.signalHash ∧
    specPublicInstanceVector[1]? = some PublicEntry.signalHashSquared := by
  decide

/-- C3 (amended): the circuit declares nine one-entry instance columns whose
order agrees with the spec's vector everywhere except the second entry,
which is the raw signal_hash rather than signal_hash_squared. -/
theorem C3_instance_vector_order :
    aadhaarInstanceColumns = specPublicInstanceVector.set 1 PublicEntry.signalHash ∧
    aadhaarInstanceColumns.length = 9 := by
  decide

/-- C4: the nullifier computation hashes the first sixteen photo elements,
hashes the last sixteen photo elements, hashes (seed, h1, h2), and as a
function of (seed, photo) is deterministic: identical inputs give an
identical nullifier. -/
theorem C4_nullifier_two_stage_deterministic {F : Type}
    (poseidonHash : List F → F) (seed seed' : F) (photo photo' : List F)
    (hs : seed = seed') (hp : photo = photo') :
    nullifierSynthesize poseidonHash seed photo =
      nullifierSynthesize poseidonHash seed' photo' ∧
    nullifierSynthesize poseidonHash seed photo =
      poseidonHash [seed, poseidonHash (photo.take 16), poseidonHash (photo.drop 16)] := by
  subst hs hp
  exact ⟨rfl, rfl⟩

/-- C4 witness: the nullifier computation evaluated on a concrete seed and
a concrete 32-element photo window. -/
theorem C4_nullifier_witness :
    nullifierSynthesize demoPoseidonHash 3 (List.replicate 32 2) =
      nullifierSynthesize demoPoseidonHash 3 (List.replicate 32 2) ∧
    nullifierSynthesize demoPoseidonHash 3 (List.replicate 32 2) =
      demoPoseidonHash [3, demoPoseidonHash ((List.replicate 32 2).take 16),
        demoPoseidonHash ((List.replicate 32 2).drop 16)] :=
  C4_nullifier_two_stage_deterministic demoPoseidonHash 3 3
    (List.replicate 32 2) (List.replicate 32 2) rfl rfl

/-- C5: the date_time_constraints gate rejects the in-bounds timestamp
1970-01-01 00:00:00 (with max_years = 1970), and indeed rejects every
timestamp witness, because its month equations force month = 1 and
month = 12 simultaneously; the claimed range behaviour is absent. -/
theorem C5_timestamp_gate_contradictory :
    dateTimeCheck (1970 : ZMod 101) timestampEpochWitness = false ∧
    (∀ (max_years : ZMod 101) (w : TimestampWitness (ZMod 101)),
      dateTimeCheck max_years w = false) := by
  refine ⟨by decide, fun max_years w => ?_⟩
  rw [dateTimeCheck, List.all_eq_false]
  rcases eq_or_ne w.month 1 with h | h
  · refine ⟨(12 - w.month + 1, 1), ?_, ?_⟩
    · simp [dateTimeConstraints]
    · simp [h]
      decide
  · refine ⟨(w.month - 1, 0), ?_, ?_⟩
    · simp [dateTimeConstraints]
    · simp only [beq_iff_eq, sub_eq_zero]
      simpa using h

/-- C7 counterexample: `SquareCircuit::synthesize` computes the squared
signal into an advice cell (here 5² = 3 over ZMod 11) but issues no
constrain_instance binding at all, so the squared cell is not checked
against any instance column. -/
theorem C7_no_instance_binding_counterexample :
    squareInstanceBindings.length = 0 ∧
    (SquareCell.signalHashSquare, (3 : ZMod 11)) ∈
      squareSynthesizeAssignments (5 : ZMod 11) := by
  decide

/-- C7 (amended): synthesize writes signal_hash * signal_hash into the
second advice cell, but the binding of that cell to an instance column is
commented out, so the list of instance constraints is empty and no cell is
verifier-visible. -/
theorem C7_square_value_not_published {F : Type} [CommRing F] (v : F) :
    (squareSynthesizeAssignments v).lookup SquareCell.signalHashSquare =
      some (v * v) ∧
    squareInstanceBindings = [] :=
  ⟨rfl, rfl⟩

/-- C9 counterexample: on the all-missing input, `IdentityCircuit::synthesize`
returns Ok and proceeds with substitute values (all flags and scalars zero,
state cells skipped) instead of rejecting the caller contract violation. -/
theorem C9_missing_witnesses_counterexample :
    identitySynthesize (ZMod 11) identityInputAllNone =
      Except.ok
        { selector_enabled := true
          reveal_age_above_18 := 0
          age_above_18 := 0
          qr_data_age_above_18 := 0
          reveal_gender := 0
          gender := 0
          qr_data_gender := 0
          reveal_pincode := 0
          pincode := 0
          qr_data_pincode := 0
          reveal_state := 0
          state := []
          qr_data_state := [] } := by
  rfl

/-- C9 (amended): synthesize never rejects an input: it always returns Ok,
substituting false for a missing reveal flag (assigned as zero), zero for a
missing scalar witness, and skipping the state cells when the state vector
is missing. -/
theorem C9_synthesize_substitutes_defaults {F : Type} [CommRing F]
    (c : IdentityCircuitInput) :
    ∃ row : IdentityRow F,
      identitySynthesize F c = Except.ok row ∧
      (c.reveal_age_above_18 = none → row.reveal_age_above_18 = 0) ∧
      (c.age_above_18 = none → row.age_above_18 = 0) ∧
      (c.state = none → row.state = []) := by
  refine ⟨_, rfl, fun h => ?_, fun h => ?_, fun h => ?_⟩
  · simp [identitySynthesize, h, boolToF]
  · simp [identitySynthesize, h]
  · simp [identitySynthesize, h, stateCells]

/-- C10: for every natural n, including any n whose square exceeds the
modulus p, the assignment produced by `SquareCircuit::synthesize` satisfies
the square gate, and the squared cell holds n * n reduced modulo p; no gate
bounds the signal below the square root of p. -/
theorem C10_square_wraps_silently (p : Nat) [NeZero p] (n : Nat) :
    ∃ sq : ZMod p,
      (squareSynthesizeAssignments ((n : ZMod p))).lookup
        SquareCell.signalHashSquare = some sq ∧
      squareGate 1 (n : ZMod p) sq = 0 ∧
      sq.val = (n * n) % p := by
  refine ⟨(n : ZMod p) * (n : ZMod p), rfl, ?_, ?_⟩
  · simp [squareGate]
  · rw [← Nat.cast_mul, ZMod.val_natCast]

/-- C10 witness: over ZMod 11 with n = 5 (whose square 25 exceeds the
modulus), the synthesized square cell holds 25 mod 11 = 3 and the gate is
satisfied. -/
theorem C10_square_wraps_witness :
    ∃ sq : ZMod 11,
      (squareSynthesizeAssignments ((5 : Nat) : ZMod 11)).lookup
        SquareCell.signalHashSquare = some sq ∧
      squareGate 1 ((5 : Nat) : ZMod 11) sq = 0 ∧
      sq.val = (5 * 5) % 11 :=
  C10_square_wraps_silently 11 5
